import Mathlib

/-!
Shallow embedding of the simulation core of `coin-collecting.py` (the
coin-collector arcade game): entity types, collision/collection handlers,
score/level controller, effect timers and the high-score store, together
with theorems settling the specification claims about them.

Conventions of the embedding:
* Python ints become `Int` (or `Nat` for list indices); quantities that can
  become floats in the source (entity speeds after fractional increments,
  particle positions) become `ℚ`.
* `random.randint` / `random.uniform` / `random.choice` / `random.random`
  draws are oracle inputs, passed explicitly as `...Rand` records.
* The high-score file is an `Option String` (`none` = missing file).
* Rendering, fonts, the pygame clock and event polling are out of scope
  (the spec treats them as external collaborators); `dark_mode` is
  display-only and omitted.
-/

/-! ## Screen constants and colors (coin-collecting.py lines 9-24) -/

def SCREEN_WIDTH : Int := 800

def SCREEN_HEIGHT : Int := 800

abbrev Color := Int × Int × Int

def BLACK : Color := (0, 0, 0)

def WHITE : Color := (255, 255, 255)

def RED : Color := (255, 0, 0)

def GOLD : Color := (255, 215, 0)

def GREEN : Color := (0, 255, 0)

def BLUE : Color := (0, 0, 255)

def PURPLE : Color := (128, 0, 128)

def ORANGE : Color := (255, 165, 0)

def CYAN : Color := (0, 255, 255)

/-! ## Game states (coin-collecting.py lines 32-35) -/

def MENU : Int := 0

def PLAYING : Int := 1

def GAME_OVER : Int := 2

def SETTINGS : Int := 3

/-! ## Player (coin-collecting.py lines 38-79) -/

/-- Pressed-key snapshot consumed by `Player.update` (the two held arrow
keys queried at lines 70 and 72). -/
structure Keys where
  left : Bool
  right : Bool
deriving DecidableEq

/-- Player state (`Player.__init__` / `reset_position`, lines 39-52).
`shield_time` / `speed_boost_time` are the `pygame.time.get_ticks()`
millisecond timestamps recorded at activation. -/
structure Player where
  width : Int
  height : Int
  x : Int
  y : Int
  speed : Int
  shield : Bool
  shield_time : Int
  speed_boost : Bool
  speed_boost_time : Int
deriving DecidableEq

/-- Fresh player per `Player.__init__` (lines 39-48) with
`reset_position` (lines 50-52): `x = SCREEN_WIDTH // 2 - width // 2`,
`y = SCREEN_HEIGHT - height - 10`. -/
def Player.initial : Player :=
  { width := 50
    height := 50
    x := SCREEN_WIDTH / 2 - 50 / 2
    y := SCREEN_HEIGHT - 50 - 10
    speed := 10
    shield := false
    shield_time := 0
    speed_boost := false
    speed_boost_time := 0 }

/-- One call of `Player.update` (lines 67-79): horizontal movement under the
held keys with the edge test made before the move, then polled expiry of the
shield and speed-boost flags 5000 ms after activation.  The per-press
displacement is `int(self.speed * speed_multiplier)` with multiplier 1.5
under boost; for the non-negative integer speeds of the game
`int(speed * 1.5) = 3 * speed / 2` (floor division). -/
def Player.update (p : Player) (keys : Keys) (current_time : Int) : Player :=
  let d : Int := if p.speed_boost then 3 * p.speed / 2 else p.speed
  let p1 := if keys.left = true ∧ p.x > 0 then { p with x := p.x - d } else p
  let p2 := if keys.right = true ∧ p1.x < SCREEN_WIDTH - p1.width then
      { p1 with x := p1.x + d } else p1
  let p3 := if p2.shield = true ∧ current_time - p2.shield_time > 5000 then
      { p2 with shield := false } else p2
  if p3.speed_boost = true ∧ current_time - p3.speed_boost_time > 5000 then
    { p3 with speed_boost := false } else p3

/-- One frame of player interaction, for stating sequence claims: the
effect flags a power-up collection may have set on the player just before
this frame's `Player.update` (mirroring the `shield` / `speed_boost`
branches of `Game.handle_powerup_collection`, lines 305-310, which touch
only the flags and their timestamps, never `x`, `width` or `speed`),
followed by the update itself. -/
structure Frame where
  grabShield : Bool
  grabBoost : Bool
  grabTime : Int
  keys : Keys
  time : Int

/-- Apply one `Frame`: optional effect activation, then `Player.update`. -/
def Player.applyFrame (p : Player) (f : Frame) : Player :=
  let pa := if f.grabShield then { p with shield := true, shield_time := f.grabTime } else p
  let pb := if f.grabBoost then
      { pa with speed_boost := true, speed_boost_time := f.grabTime } else pa
  pb.update f.keys f.time

/-- Run a sequence of frames left to right. -/
def Player.runFrames (p : Player) : List Frame → Player
  | [] => p
  | f :: fs => (p.applyFrame f).runFrames fs

/-! ## Obstacle (coin-collecting.py lines 82-106) -/

/-- Obstacle state (`Obstacle.__init__`, lines 83-88).  `y` and `speed` are
rationals: `speed += 0.3` on respawn makes them fractional in the source. -/
structure Obstacle where
  width : Int
  height : Int
  x : Int
  y : ℚ
  speed : ℚ
  color : Color
deriving DecidableEq

/-- Random draws of `Obstacle.__init__` / `Obstacle.respawn`:
`width = randint(100, 200)` then `x = randint(0, SCREEN_WIDTH - width)`. -/
structure ObstacleRand where
  width : Int
  x : Int

/-- Fresh obstacle (`Obstacle.__init__`, lines 83-88, with
`reset_position`, lines 90-92: `y = -height`). -/
def Obstacle.init (r : ObstacleRand) : Obstacle :=
  { width := r.width, height := 20, x := r.x, y := -(20 : Int), speed := 5, color := RED }

/-- Obstacle per-frame move (`Obstacle.update`, lines 97-98). -/
def Obstacle.updateStep (o : Obstacle) : Obstacle :=
  { o with y := o.y + o.speed }

/-- Obstacle off-screen test (`Obstacle.is_off_screen`, lines 100-101):
true exactly when the TOP coordinate `y` exceeds `SCREEN_HEIGHT`. -/
def Obstacle.is_off_screen (o : Obstacle) : Bool :=
  decide (o.y > (SCREEN_HEIGHT : Int))

/-- Obstacle respawn (`Obstacle.respawn`, lines 103-106): new random width,
position reset above the top edge, `speed += 0.3`. -/
def Obstacle.respawn (o : Obstacle) (r : ObstacleRand) : Obstacle :=
  { o with width := r.width, x := r.x, y := -o.height, speed := o.speed + 3 / 10 }

/-! ## Coin (coin-collecting.py lines 109-145) -/

/-- Coin state (`Coin.__init__`, lines 110-117). -/
structure Coin where
  radius : Int
  x : Int
  y : ℚ
  speed : ℚ
  color : Color
  collected : Bool
  animation_frame : Int
  value : Int
deriving DecidableEq

/-- Random draw of a coin position: `x = randint(radius, SCREEN_WIDTH - radius)`. -/
structure CoinPosRand where
  x : Int

/-- Random draws of `Coin.respawn`: the new position and the outcome of the
`random.random() < 0.1` purple-coin roll. -/
structure CoinRespawnRand where
  pos : CoinPosRand
  purple : Bool

/-- Fresh coin (`Coin.__init__`, lines 110-117, with `reset_position`,
lines 119-121: `y = -radius`). -/
def Coin.init (r : CoinPosRand) : Coin :=
  { radius := 15, x := r.x, y := -(15 : Int), speed := 4, color := GOLD,
    collected := false, animation_frame := 0, value := 1 }

/-- Coin per-frame move (`Coin.update`, lines 129-131). -/
def Coin.updateStep (c : Coin) : Coin :=
  { c with y := c.y + c.speed, animation_frame := c.animation_frame + 1 }

/-- Coin off-screen test (`Coin.is_off_screen`, lines 133-134): true exactly
when the CENTER coordinate `y` exceeds `SCREEN_HEIGHT`. -/
def Coin.is_off_screen (c : Coin) : Bool :=
  decide (c.y > (SCREEN_HEIGHT : Int))

/-- Coin respawn (`Coin.respawn`, lines 136-145): position reset,
`speed += 0.2`, uncollected; with probability 0.1 the coin becomes purple
with value 5, else gold with value 1. -/
def Coin.respawn (c : Coin) (r : CoinRespawnRand) : Coin :=
  { c with
    x := r.pos.x, y := -c.radius, speed := c.speed + 2 / 10, collected := false,
    color := if r.purple then PURPLE else GOLD,
    value := if r.purple then 5 else 1 }

/-! ## PowerUp (coin-collecting.py lines 148-199) -/

/-- The three power-up kinds (`random.choice(["shield", "speed_boost",
"extra_life"])`, line 154). -/
inductive PowerUpType where
  | shield
  | speed_boost
  | extra_life
deriving DecidableEq

/-- Color assigned by `PowerUp.set_color` (lines 162-167). -/
def PowerUpType.toColor : PowerUpType → Color
  | .shield => CYAN
  | .speed_boost => ORANGE
  | .extra_life => GREEN

/-- PowerUp state (`PowerUp.__init__`, lines 149-156).  Its speed stays the
integer 3 for the whole session (power-ups are never respawned by the game
loop: they are removed on exit or collection), so `y` stays integral. -/
structure PowerUp where
  width : Int
  height : Int
  x : Int
  y : Int
  speed : Int
  type : PowerUpType
  collected : Bool
  color : Color
deriving DecidableEq

/-- Random draws of `PowerUp.__init__`: position and kind. -/
structure PowerUpRand where
  x : Int
  type : PowerUpType

/-- Fresh power-up (`PowerUp.__init__`, lines 149-156, with
`reset_position`, lines 158-160: `y = -height`). -/
def PowerUp.init (r : PowerUpRand) : PowerUp :=
  { width := 30, height := 30, x := r.x, y := -30, speed := 3,
    type := r.type, collected := false, color := r.type.toColor }

/-- PowerUp per-frame move (`PowerUp.update`, lines 189-190). -/
def PowerUp.updateStep (p : PowerUp) : PowerUp :=
  { p with y := p.y + p.speed }

/-- PowerUp off-screen test (`PowerUp.is_off_screen`, lines 192-193): true
exactly when the TOP coordinate `y` exceeds `SCREEN_HEIGHT`. -/
def PowerUp.is_off_screen (p : PowerUp) : Bool :=
  decide (p.y > SCREEN_HEIGHT)

/-! ## Particle (coin-collecting.py lines 202-222) -/

/-- Particle state (`Particle.__init__`, lines 203-210).  Positions, size
and velocities are rationals (`uniform` draws and the 0.1 size decay are
floats in the source). -/
structure Particle where
  x : ℚ
  y : ℚ
  color : Color
  size : ℚ
  speed_x : ℚ
  speed_y : ℚ
  lifetime : Int
deriving DecidableEq

/-- Random draws of `Particle.__init__`: `size = randint(2, 5)`,
`speed_x = uniform(-2, 2)`, `speed_y = uniform(-5, -1)`,
`lifetime = randint(20, 40)`. -/
structure ParticleRand where
  size : Int
  speed_x : ℚ
  speed_y : ℚ
  lifetime : Int

/-- Fresh particle at `(x, y)` with the given color
(`Particle.__init__`, lines 203-210). -/
def Particle.init (x y : ℚ) (color : Color) (r : ParticleRand) : Particle :=
  { x := x, y := y, color := color, size := (r.size : ℚ),
    speed_x := r.speed_x, speed_y := r.speed_y, lifetime := r.lifetime }

/-- Particle per-frame step (`Particle.update`, lines 212-216): drift by the
fixed velocity, age by one tick, shrink by 0.1 floored at 0. -/
def Particle.updateStep (p : Particle) : Particle :=
  { p with
    x := p.x + p.speed_x, y := p.y + p.speed_y,
    lifetime := p.lifetime - 1, size := max 0 (p.size - 1 / 10) }

/-- Particle death test (`Particle.is_dead`, lines 221-222). -/
def Particle.is_dead (p : Particle) : Bool :=
  decide (p.lifetime ≤ 0)

/-! ## High-score store (coin-collecting.py lines 241-251) -/

/-- The persisted high-score file, `highscore.txt`: `none` models a missing
file (the `FileNotFoundError` branch), `some s` a file with content `s`. -/
abbrev HighScoreFile := Option String

/-- Static `Game.load_high_score` (lines 241-247): parse the file content as
a Python `int(...)`; a missing file or content that fails to parse
(`ValueError`) yields 0.  `String.toInt?` accepts exactly an optional minus
sign followed by decimal digits, which is what `save_high_score` ever
writes; further laxities of Python's `int()` (surrounding whitespace) are
immaterial to the claims. -/
def load_high_score (file : HighScoreFile) : Int :=
  match file with
  | none => 0
  | some s => (s.toInt?).getD 0

/-! ## Game session state (coin-collecting.py lines 225-239) -/

/-- Game session state (`Game.__init__`, lines 226-239).  The pygame clock
and the display-only `dark_mode` flag are out of scope. -/
structure Game where
  state : Int
  player : Player
  obstacles : List Obstacle
  coins : List Coin
  power_ups : List PowerUp
  particles : List Particle
  score : Int
  high_score : Int
  level : Int
  lives : Int
deriving DecidableEq

/-- Content `Game.save_high_score` (lines 249-251) writes to
`highscore.txt`: `str(self.high_score)`. -/
def Game.save_high_score (g : Game) : String :=
  toString g.high_score

/-- Random draws of `Game.reset_game_objects`: the constructor draws of the
freshly created obstacles and coins, indexed by position in the new list. -/
structure ResetRand where
  obstacle : ℕ → ObstacleRand
  coin : ℕ → CoinPosRand

/-- `Game.reset_game_objects` (lines 253-257): rebuild the obstacle and coin
collections at the level-dependent sizes `min(3 + level // 2, 5)` and
`min(2 + level // 3, 5)`, and clear all power-ups and particles. -/
def Game.reset_game_objects (g : Game) (r : ResetRand) : Game :=
  { g with
    obstacles := (List.range (min (3 + g.level / 2) 5).toNat).map
      fun i => Obstacle.init (r.obstacle i)
    coins := (List.range (min (2 + g.level / 3) 5).toNat).map
      fun i => Coin.init (r.coin i)
    power_ups := []
    particles := [] }

/-- `Game.__init__` (lines 226-239): menu state, fresh player, score 0,
level 1, lives 1, high score loaded from the file, then
`reset_game_objects`. -/
def Game.initial (file : HighScoreFile) (r : ResetRand) : Game :=
  Game.reset_game_objects
    { state := MENU
      player := Player.initial
      obstacles := []
      coins := []
      power_ups := []
      particles := []
      score := 0
      high_score := load_high_score file
      level := 1
      lives := 1 } r

/-- `Game.level_up` (lines 341-343): increment the level, then
`reset_game_objects`. -/
def Game.level_up (g : Game) (r : ResetRand) : Game :=
  Game.reset_game_objects { g with level := g.level + 1 } r

/-- `Game.reset_game` (lines 351-356): fresh player, score 0, level 1,
lives 1, then `reset_game_objects` (run on the Menu → Playing transition). -/
def Game.reset_game (g : Game) (r : ResetRand) : Game :=
  Game.reset_game_objects
    { g with player := Player.initial, score := 0, level := 1, lives := 1 } r

/-- Random draws of `Game.spawn_power_up` (lines 259-261): the outcome of
the `random.random() < 0.05` roll and the new power-up's constructor
draws. -/
structure SpawnRand where
  roll : Bool
  pu : PowerUpRand

/-- `Game.spawn_power_up` (lines 259-261): with probability 0.05 and fewer
than 2 active power-ups, append a fresh one. -/
def Game.spawn_power_up (g : Game) (r : SpawnRand) : Game :=
  if r.roll = true ∧ g.power_ups.length < 2 then
    { g with power_ups := g.power_ups ++ [PowerUp.init r.pu] }
  else g

/-- `Game.game_over` (lines 345-349), threading the high-score file: set
the GameOver state, then on a new record write the score through
`save_high_score`.  `writeOk` is the oracle for whether the `open`/`write`
of `highscore.txt` succeeds; `save_high_score` has no exception handler, so
on a failed write the raise propagates out of `game_over` — the `.error`
case — carrying the already-mutated game (Python field assignments made
before the raise persist) and the unchanged file. -/
def Game.game_over (g : Game) (writeOk : Bool) (file : HighScoreFile) :
    Except (Game × HighScoreFile) (Game × HighScoreFile) :=
  let g1 := { g with state := GAME_OVER }
  if g1.score > g1.high_score then
    let g2 := { g1 with high_score := g1.score }
    if writeOk then .ok (g2, some g2.save_high_score)
    else .error (g2, file)
  else .ok (g1, file)

/-- Random draws of `Game.handle_coin_collection`: the 20 spawned
particles' draws, the coin's respawn draws, and (when a level-up fires) the
`reset_game_objects` draws. -/
structure CoinCollectRand where
  particle : ℕ → ParticleRand
  cRespawn : CoinRespawnRand
  reset : ResetRand

/-- `Game.handle_coin_collection` (lines 290-300) for the coin at index `i`
of `self.coins` (an index, since the Python coin argument is an alias into
that list): mark it collected, add its value to the score, spawn 20
particles of the coin's color at its position, respawn the coin, then run
the level-up check `score // 10 > level - 1`.  An out-of-range index never
occurs in the source (the argument is a list element); it is a no-op
here. -/
def Game.handle_coin_collection (g : Game) (i : ℕ) (r : CoinCollectRand) : Game :=
  match g.coins[i]? with
  | none => g
  | some coin =>
    let coin1 := { coin with collected := true }
    let g1 := { g with coins := g.coins.set i coin1, score := g.score + coin.value }
    let g2 := { g1 with
      particles := g1.particles ++ (List.range 20).map
        fun j => Particle.init (coin.x : ℚ) coin.y coin.color (r.particle j) }
    let g3 := { g2 with coins := g2.coins.set i (coin1.respawn r.cRespawn) }
    if g3.score / 10 > g3.level - 1 then g3.level_up r.reset else g3

/-- `Game.handle_powerup_collection` (lines 302-314) for the power-up at
index `i` of `self.power_ups`: mark it collected, apply its effect (shield
or speed-boost flag with activation timestamp `pygame.time.get_ticks()`,
or an extra life), then `self.power_ups.remove(power_up)` — removal of the
first list entry identical to the argument, i.e. erasure at index `i`. -/
def Game.handle_powerup_collection (g : Game) (i : ℕ) (current_time : Int) : Game :=
  match g.power_ups[i]? with
  | none => g
  | some pu =>
    let g1 := { g with power_ups := g.power_ups.set i { pu with collected := true } }
    let g2 :=
      match pu.type with
      | .shield =>
        { g1 with player := { g1.player with shield := true, shield_time := current_time } }
      | .speed_boost =>
        { g1 with player :=
            { g1.player with speed_boost := true, speed_boost_time := current_time } }
      | .extra_life => { g1 with lives := g1.lives + 1 }
    { g2 with power_ups := g2.power_ups.eraseIdx i }

/-- Random draws of `Game.handle_obstacle_collision`: the obstacle's
respawn draws and the 30 spawned particles' draws. -/
structure ObstacleHitRand where
  oRespawn : ObstacleRand
  particle : ℕ → ParticleRand

/-- `Game.handle_obstacle_collision` (lines 316-339) for the obstacle at
index `i` of `self.obstacles`: with an active shield, clear the shield,
respawn the obstacle and spawn 30 cyan particles at the player's center;
otherwise lose a life and respawn the obstacle, then either `game_over()`
(which may raise on a failed high-score write, hence the `Except`) when
`lives <= 0`, or spawn 30 red particles at the player's center. -/
def Game.handle_obstacle_collision (g : Game) (i : ℕ) (r : ObstacleHitRand)
    (writeOk : Bool) (file : HighScoreFile) :
    Except (Game × HighScoreFile) (Game × HighScoreFile) :=
  match g.obstacles[i]? with
  | none => .ok (g, file)
  | some obstacle =>
    if g.player.shield then
      let g1 := { g with
        player := { g.player with shield := false }
        obstacles := g.obstacles.set i (obstacle.respawn r.oRespawn) }
      .ok ({ g1 with
        particles := g1.particles ++ (List.range 30).map
          fun j => Particle.init ((g1.player.x + g1.player.width / 2 : Int) : ℚ)
            ((g1.player.y + g1.player.height / 2 : Int) : ℚ) CYAN (r.particle j) }, file)
    else
      let g1 := { g with
        lives := g.lives - 1
        obstacles := g.obstacles.set i (obstacle.respawn r.oRespawn) }
      if g1.lives ≤ (0 : Int) then
        g1.game_over writeOk file
      else
        .ok ({ g1 with
          particles := g1.particles ++ (List.range 30).map
            fun j => Particle.init ((g1.player.x + g1.player.width / 2 : Int) : ℚ)
              ((g1.player.y + g1.player.height / 2 : Int) : ℚ) RED (r.particle j) }, file)

/-- The game state reached by a possibly-raising call: the `.ok` payload, or
for `.error` the state already mutated when the exception left the
handler. -/
def resultGame : Except (Game × HighScoreFile) (Game × HighScoreFile) → Game
  | .ok (g, _) => g
  | .error (g, _) => g

/-! ## The per-frame entity passes of `Game.update` (lines 358-385).

Each Python loop iterates a snapshot (`[:]` copy for power-ups and
particles), mutates each element in place via its `update()` and removes
(or respawns, for the recycled obstacles and coins) the expired ones;
`list.remove` compares by object identity, so each pass keeps, in order,
exactly the moved elements that are not expired — a map followed by a
filter (or an in-place `mapIdx` for the respawning loops). -/

/-- Obstacle pass of `Game.update` (lines 363-366). -/
def Game.update_obstacles (g : Game) (r : ℕ → ObstacleRand) : Game :=
  { g with
    obstacles := g.obstacles.mapIdx (fun i o =>
      let o1 := o.updateStep
      if o1.is_off_screen then o1.respawn (r i) else o1) }

/-- Coin pass of `Game.update` (lines 368-371). -/
def Game.update_coins (g : Game) (r : ℕ → CoinRespawnRand) : Game :=
  { g with
    coins := g.coins.mapIdx (fun i c =>
      let c1 := c.updateStep
      if c1.is_off_screen then c1.respawn (r i) else c1) }

/-- Power-up pass of `Game.update` (lines 373-376): move each, drop the
off-screen ones. -/
def Game.update_power_ups (g : Game) : Game :=
  { g with
    power_ups := (g.power_ups.map PowerUp.updateStep).filter
      (fun p => !p.is_off_screen) }

/-- Particle pass of `Game.update` (lines 380-383): age each, drop the dead
ones. -/
def Game.update_particles (g : Game) : Game :=
  { g with
    particles := (g.particles.map Particle.updateStep).filter
      (fun p => !p.is_dead) }

/-! ## Sequences of coin collections (for the level/score invariant) -/

/-- Process a sequence of coin collections one at a time, each given by the
index of the collected coin and the random draws of its handler. -/
def Game.processCollections (g : Game) : List (ℕ × CoinCollectRand) → Game
  | [] => g
  | e :: es => (g.handle_coin_collection e.1 e.2).processCollections es

/-! ## Concrete sample values (used by closed witness/counterexample
theorems) -/

/-- A fixed particle draw: size 2, drift (0, -1), lifetime 20. -/
def prand0 : ParticleRand := ⟨2, 0, -1, 20⟩

/-- A fixed obstacle draw: width 100, x 0. -/
def orand0 : ObstacleRand := ⟨100, 0⟩

/-- A fixed coin position draw: x 15. -/
def crand0 : CoinPosRand := ⟨15⟩

/-- A fixed coin respawn draw: x 15, gold. -/
def cresp0 : CoinRespawnRand := ⟨⟨15⟩, false⟩

/-- Fixed `reset_game_objects` draws. -/
def reset0 : ResetRand := ⟨fun _ => orand0, fun _ => crand0⟩

/-- Fixed coin-collection draws. -/
def ccr0 : CoinCollectRand := ⟨fun _ => prand0, cresp0, reset0⟩

/-- Fixed obstacle-hit draws. -/
def ohr0 : ObstacleHitRand := ⟨orand0, fun _ => prand0⟩

/-- The sample obstacle spawned from `orand0`. -/
def obstacle0 : Obstacle := Obstacle.init orand0

/-- The sample coin spawned from `crand0` (value 1). -/
def coin0 : Coin := Coin.init crand0

/-- A sample extra-life power-up. -/
def pu_life : PowerUp := PowerUp.init ⟨0, .extra_life⟩

/-- A sample shield power-up. -/
def pu_shield : PowerUp := PowerUp.init ⟨0, .shield⟩

/-- A player holding an active shield and an active speed boost activated at
time 0. -/
def pBoth : Player :=
  { Player.initial with
    shield := true, shield_time := 0, speed_boost := true, speed_boost_time := 0 }

/-- A minimal mid-session game: playing, one obstacle, one coin, one life. -/
def gBase : Game :=
  { state := PLAYING
    player := Player.initial
    obstacles := [obstacle0]
    coins := [coin0]
    power_ups := []
    particles := []
    score := 0
    high_score := 0
    level := 1
    lives := 1 }

/-- Session about to level up with an active power-up on screen. -/
def gC5ex : Game := { gBase with score := 9, power_ups := [pu_shield] }

/-- Session at game over with a new record of 50. -/
def gC8ex : Game := { gBase with score := 50 }

/-- Session whose stored high score is 42. -/
def gHS : Game := { gBase with high_score := 42 }

/-- Session with one extra-life power-up being collected. -/
def gC10ex : Game := { gBase with power_ups := [pu_life] }

/-- Session with a shielded player about to collide an obstacle. -/
def gC4ex : Game := { gBase with player := pBoth }

/-- An obstacle whose bottom edge (y + height = 810) has passed the screen
bottom while its top edge has not. -/
def oC6 : Obstacle := { obstacle0 with y := 790 }

/-- An obstacle that is fully below the screen (top edge at y = 801). -/
def oOff : Obstacle := { obstacle0 with y := 801 }

/-! ## Invariant predicates -/

/-- Invariant carried through `Player` frames for the x-bound claim: the
untouched constants `speed = 10`, `width = 50` and the reachable x-range. -/
def PlayerXInv (p : Player) : Prop :=
  p.speed = 10 ∧ p.width = 50 ∧ -14 ≤ p.x ∧ p.x ≤ 764

/-- Invariant carried through coin collections for the level/score claim:
non-negative score, the level/score equation, and coin values drawn from
{1, 5}. -/
def GameScoreInv (g : Game) : Prop :=
  0 ≤ g.score ∧ g.level = 1 + g.score / 10 ∧
    ∀ c ∈ g.coins, c.value = 1 ∨ c.value = 5

/-- Number of decimal digits (used to specify the decimal writer that backs
the high-score store round-trip proof). -/
def digLen (n : ℕ) : ℕ :=
  if n < 10 then 1 else digLen (n / 10) + 1
decreasing_by exact Nat.div_lt_self (by omega) (by omega)

/-! # Claim theorems -/

/-! ### C3: power-up effect expiry -/

/-- C3 counterexample: with a shield (and speed boost) activated at time 0,
the polled update at exactly time 5000 — `now = activatedAt + 5000` — does
NOT clear the flags, contradicting the claim that the effect "is cleared at
the first polled update with now = activatedAt + 5000 ms". -/
theorem C3_counterexample :
    (pBoth.update ⟨false, false⟩ 5000).shield = true ∧
      (pBoth.update ⟨false, false⟩ 5000).speed_boost = true := by
  decide

/-- C3 (amended): after any polled `Player.update` at time `now`, the shield
(resp. speed boost) is active iff it was active before and
`now - activatedAt ≤ 5000`: the effect is still active at every poll with
`now - activatedAt ≤ 5000` — including `now = activatedAt + 5000` — and is
cleared at the first poll with `now - activatedAt > 5000`, so it expires
strictly after `activatedAt + 5000`, not at it. -/
theorem C3_effect_expiry (p : Player) (keys : Keys) (now : Int) :
    ((p.update keys now).shield = (p.shield && decide (now - p.shield_time ≤ 5000))) ∧
    ((p.update keys now).speed_boost
      = (p.speed_boost && decide (now - p.speed_boost_time ≤ 5000))) := by
  obtain ⟨w, h, x, y, sp, sh, sht, sb, sbt⟩ := p
  simp only [Player.update]
  split_ifs <;> cases sh <;> cases sb <;> simp_all <;> omega

/-! ### C9: player x-coordinate bounds -/

/-- One `Player.update` preserves the x-range invariant: with `speed = 10`
and `width = 50`, the pre-move edge tests `x > 0` and
`x < SCREEN_WIDTH - width` keep every post-move x within `[-14, 764]`
(displacement at most `int(10 * 1.5) = 15` from a position at least 1
inside the tested edge). -/
theorem playerXInv_update (p : Player) (keys : Keys) (t : Int)
    (hp : PlayerXInv p) : PlayerXInv (p.update keys t) := by
  obtain ⟨w, h, x, y, sp, sh, sht, sb, sbt⟩ := p
  obtain ⟨hs, hw, h1, h2⟩ := hp
  simp only at hs hw
  subst hs hw
  simp only [Player.update, PlayerXInv, SCREEN_WIDTH]
  cases sb <;> split_ifs <;> simp_all <;> omega

/-- Power-up pickups touch only the effect flags, so they preserve the
x-range invariant; combined with `playerXInv_update`, every frame does. -/
theorem playerXInv_applyFrame (p : Player) (f : Frame)
    (hp : PlayerXInv p) : PlayerXInv (p.applyFrame f) := by
  refine playerXInv_update _ f.keys f.time ?_
  obtain ⟨hs, hw, h1, h2⟩ := hp
  split_ifs <;> exact ⟨hs, hw, h1, h2⟩

/-- The x-range invariant holds after any frame sequence that starts in
it. -/
theorem playerXInv_runFrames (p : Player) (fs : List Frame)
    (hp : PlayerXInv p) : PlayerXInv (p.runFrames fs) := by
  induction fs generalizing p with
  | nil => exact hp
  | cons f fs ih => exact ih _ (playerXInv_applyFrame p f hp)

/-- C9: starting from the initial player position (x = 375), after each
`Player.update` of any frame sequence — whatever keys are held, whatever
times are polled and whatever shield/speed-boost pickups occur — the
player's x coordinate stays within `[-14, 764]`, i.e. within
`[-(ceil(1.5 * speed) - 1), SCREEN_WIDTH - width + ceil(1.5 * speed) - 1]`
for speed 10 and width 50: the edge test precedes the move, so x can land
up to 14 px outside either screen edge but never moves further outward once
past it. -/
theorem C9_player_x_bounds (fs : List Frame) (n : ℕ) :
    -14 ≤ (Player.initial.runFrames (fs.take n)).x ∧
      (Player.initial.runFrames (fs.take n)).x ≤ 764 := by
  have h0 : PlayerXInv Player.initial := by
    refine ⟨rfl, rfl, by decide, by decide⟩
  have h := playerXInv_runFrames Player.initial (fs.take n) h0
  exact ⟨h.2.2.1, h.2.2.2⟩

/-! ### Shared list helper lemmas -/

/-- Erasing the entry just overwritten by `set` erases the original entry:
`set i` then `eraseIdx i` is `eraseIdx i` alone (the `collected = True` mark
made by a collection handler right before the removal is invisible in the
resulting list). -/
theorem List.eraseIdx_set_self {α : Type} (l : List α) (i : ℕ) (a : α) :
    (l.set i a).eraseIdx i = l.eraseIdx i := by
  induction l generalizing i with
  | nil => simp
  | cons x xs ih => cases i <;> simp_all

/-! ### C6: off-screen tests -/

/-- C6 counterexample: the obstacle `oC6` (top y = 790, height 20) has its
leading bottom edge past the bottom boundary (`y + height = 810 > 800`) yet
`is_off_screen` is still false, refuting the claim that `isOffScreen()` is
already true when `y + height > SCREEN_HEIGHT`. -/
theorem C6_counterexample :
    oC6.y + (oC6.height : ℚ) > (SCREEN_HEIGHT : ℚ) ∧ oC6.is_off_screen = false := by
  refine ⟨?_, rfl⟩
  norm_num [oC6, obstacle0, Obstacle.init, SCREEN_HEIGHT]

/-- C6 (amended): for every Obstacle, Coin and PowerUp, `is_off_screen`
returns true exactly when the entity's TOP coordinate (its circle CENTER,
for coins) has passed the bottom boundary, `y > SCREEN_HEIGHT` — i.e. only
once the entity is entirely below the screen.  This is strictly later than
the claimed leading-(bottom)-edge test: whenever `is_off_screen` holds, the
bottom edge `y + height` (rsp. `y + radius`) is indeed past the boundary,
but not conversely (see the counterexample). -/
theorem C6_is_off_screen_top_edge :
    (∀ o : Obstacle, o.is_off_screen = true ↔ (SCREEN_HEIGHT : ℚ) < o.y) ∧
    (∀ c : Coin, c.is_off_screen = true ↔ (SCREEN_HEIGHT : ℚ) < c.y) ∧
    (∀ p : PowerUp, p.is_off_screen = true ↔ SCREEN_HEIGHT < p.y) ∧
    (∀ o : Obstacle, 0 < o.height → o.is_off_screen = true →
      (SCREEN_HEIGHT : ℚ) < o.y + (o.height : ℚ)) ∧
    (∀ c : Coin, 0 < c.radius → c.is_off_screen = true →
      (SCREEN_HEIGHT : ℚ) < c.y + (c.radius : ℚ)) ∧
    (∀ p : PowerUp, 0 < p.height → p.is_off_screen = true →
      SCREEN_HEIGHT < p.y + p.height) := by
  refine ⟨?_, ?_, ?_, ?_, ?_, ?_⟩
  · intro o; simp [Obstacle.is_off_screen]
  · intro c; simp [Coin.is_off_screen]
  · intro p; simp [PowerUp.is_off_screen]
  · intro o h1 h2
    simp [Obstacle.is_off_screen] at h2
    have h3 : (0 : ℚ) < (o.height : ℚ) := by exact_mod_cast h1
    linarith
  · intro c h1 h2
    simp [Coin.is_off_screen] at h2
    have h3 : (0 : ℚ) < (c.radius : ℚ) := by exact_mod_cast h1
    linarith
  · intro p h1 h2
    simp [PowerUp.is_off_screen] at h2
    omega

/-- C6 witness: the amended characterization applied to the concrete
obstacle `oOff` (top y = 801). -/
theorem C6_witness :
    (0 : Int) < oOff.height ∧ oOff.is_off_screen = true ∧
      (SCREEN_HEIGHT : ℚ) < oOff.y + (oOff.height : ℚ) :=
  ⟨by decide, by rfl,
    C6_is_off_screen_top_edge.2.2.2.1 oOff (by decide) (by rfl)⟩

/-! ### C10: extra-life power-up collection -/

/-- C10: collecting an `extra_life` power-up increments `lives` by exactly 1
— unconditionally, with no upper bound, since the theorem holds for every
game state — leaves `score`, `level` and the whole player (hence the shield
and speed-boost flags) unchanged, and removes exactly that power-up from the
active collection. -/
theorem C10_extra_life_collection (g : Game) (i : ℕ) (pu : PowerUp) (now : Int)
    (hpu : g.power_ups[i]? = some pu) (ht : pu.type = PowerUpType.extra_life) :
    (g.handle_powerup_collection i now).lives = g.lives + 1 ∧
    (g.handle_powerup_collection i now).score = g.score ∧
    (g.handle_powerup_collection i now).level = g.level ∧
    (g.handle_powerup_collection i now).player = g.player ∧
    (g.handle_powerup_collection i now).power_ups = g.power_ups.eraseIdx i := by
  simp [Game.handle_powerup_collection, hpu, ht, List.eraseIdx_set_self]

/-- C10 witness: the theorem applied to the concrete session `gC10ex` whose
single active power-up is an extra life. -/
theorem C10_witness :
    (gC10ex.handle_powerup_collection 0 7).lives = gC10ex.lives + 1 ∧
    (gC10ex.handle_powerup_collection 0 7).score = gC10ex.score ∧
    (gC10ex.handle_powerup_collection 0 7).level = gC10ex.level ∧
    (gC10ex.handle_powerup_collection 0 7).player = gC10ex.player ∧
    (gC10ex.handle_powerup_collection 0 7).power_ups = gC10ex.power_ups.eraseIdx 0 :=
  C10_extra_life_collection gC10ex 0 pu_life 7 (by rfl) (by rfl)

/-! ### C4: shielded obstacle hit -/

/-- C4: an obstacle collision while the shield is active absorbs exactly one
hit: the handler returns normally (the `game_over` path is never reached)
with the shield flag cleared, `lives` (and every other scoring field)
untouched, the hit obstacle respawned in place, and exactly 30 cyan
particles appended at the player's center; the high-score file is not
touched. -/
theorem C4_shield_absorbs_hit (g : Game) (i : ℕ) (ob : Obstacle)
    (r : ObstacleHitRand) (writeOk : Bool) (file : HighScoreFile)
    (hob : g.obstacles[i]? = some ob) (hsh : g.player.shield = true) :
    g.handle_obstacle_collision i r writeOk file =
      .ok ({ g with
        player := { g.player with shield := false }
        obstacles := g.obstacles.set i (ob.respawn r.oRespawn)
        particles := g.particles ++ (List.range 30).map
          (fun j => Particle.init ((g.player.x + g.player.width / 2 : Int) : ℚ)
            ((g.player.y + g.player.height / 2 : Int) : ℚ) CYAN (r.particle j)) },
        file) := by
  simp [Game.handle_obstacle_collision, hob, hsh]

/-- C4 witness: the theorem applied to the session `gC4ex`, whose player
holds an active shield, colliding its single obstacle. -/
theorem C4_witness :
    gC4ex.handle_obstacle_collision 0 ohr0 true none =
      .ok ({ gC4ex with
        player := { gC4ex.player with shield := false }
        obstacles := gC4ex.obstacles.set 0 (obstacle0.respawn ohr0.oRespawn)
        particles := gC4ex.particles ++ (List.range 30).map
          (fun j => Particle.init ((gC4ex.player.x + gC4ex.player.width / 2 : Int) : ℚ)
            ((gC4ex.player.y + gC4ex.player.height / 2 : Int) : ℚ) CYAN
            (ohr0.particle j)) }, none) :=
  C4_shield_absorbs_hit gC4ex 0 obstacle0 ohr0 true none (by rfl) (by rfl)

/-! ### C2: non-shielded obstacle hit -/

/-- C2 counterexample: with `lives = 1`, no shield, the hit at `gBase`
decrements lives to 0 and transitions to GameOver, but spawns NO particles —
the particle list stays empty — refuting the claim that every non-shielded
hit spawns 30 red particles at the player's center. -/
theorem C2_counterexample :
    (resultGame (gBase.handle_obstacle_collision 0 ohr0 true none)).lives = 0 ∧
    (resultGame (gBase.handle_obstacle_collision 0 ohr0 true none)).state = GAME_OVER ∧
    (resultGame (gBase.handle_obstacle_collision 0 ohr0 true none)).particles = [] := by
  refine ⟨rfl, rfl, rfl⟩

/-- C2 (amended): a non-shielded obstacle hit decrements `lives` by 1 and
respawns the obstacle; then, if `lives ≤ 0` afterward, the mode transitions
to GameOver WITHOUT spawning any particles (the 30-red-particle spawn sits
on the surviving `else` branch only), and otherwise 30 red particles are
spawned at the player's center with the mode unchanged. -/
theorem C2_nonshield_hit (g : Game) (i : ℕ) (ob : Obstacle)
    (r : ObstacleHitRand) (writeOk : Bool) (file : HighScoreFile)
    (hob : g.obstacles[i]? = some ob) (hsh : g.player.shield = false) :
    (resultGame (g.handle_obstacle_collision i r writeOk file)).lives = g.lives - 1 ∧
    (resultGame (g.handle_obstacle_collision i r writeOk file)).obstacles
      = g.obstacles.set i (ob.respawn r.oRespawn) ∧
    (g.lives - 1 ≤ 0 →
      (resultGame (g.handle_obstacle_collision i r writeOk file)).state = GAME_OVER ∧
      (resultGame (g.handle_obstacle_collision i r writeOk file)).particles
        = g.particles) ∧
    (0 < g.lives - 1 →
      (resultGame (g.handle_obstacle_collision i r writeOk file)).state = g.state ∧
      (resultGame (g.handle_obstacle_collision i r writeOk file)).particles
        = g.particles ++ (List.range 30).map
          (fun j => Particle.init ((g.player.x + g.player.width / 2 : Int) : ℚ)
            ((g.player.y + g.player.height / 2 : Int) : ℚ) RED (r.particle j))) := by
  simp only [Game.handle_obstacle_collision, hob, hsh, Bool.false_eq_true, if_false]
  split_ifs with hl
  · simp only [Game.game_over, Game.save_high_score]
    split_ifs with hrec hwr <;>
      exact ⟨rfl, rfl, fun _ => ⟨rfl, rfl⟩, fun hpos => absurd hl (by omega)⟩
  · exact ⟨rfl, rfl, fun hle => absurd hle (by omega), fun _ => ⟨rfl, rfl⟩⟩

/-- C2 witness: the amended theorem applied to the surviving-hit session
(`gBase` with 2 lives): lives drop to 1, the mode stays Playing and 30 red
particles appear. -/
theorem C2_witness :
    (resultGame (({ gBase with lives := 2 } : Game).handle_obstacle_collision
        0 ohr0 true none)).lives = ({ gBase with lives := 2 } : Game).lives - 1 ∧
    (0 : Int) < ({ gBase with lives := 2 } : Game).lives - 1 ∧
    (resultGame (({ gBase with lives := 2 } : Game).handle_obstacle_collision
        0 ohr0 true none)).state = ({ gBase with lives := 2 } : Game).state :=
  ⟨(C2_nonshield_hit { gBase with lives := 2 } 0 obstacle0 ohr0 true none
      (by rfl) (by rfl)).1,
   by decide,
   ((C2_nonshield_hit { gBase with lives := 2 } 0 obstacle0 ohr0 true none
      (by rfl) (by rfl)).2.2.2 (by decide)).1⟩

/-! ### C8: high-score write failure at game-over -/

/-- C8 counterexample: at game-over with a new record (score 50 > stored 0)
and a failing file write, `game_over` returns exceptionally — the raise from
the handler-less `save_high_score` propagates out of the game-over handler —
refuting the claim that no error propagates (the mode does become GameOver
first, as the state is assigned before the write). -/
theorem C8_counterexample :
    gC8ex.game_over false none =
      Except.error ({ gC8ex with state := GAME_OVER, high_score := 50 }, none) := by
  rfl

/-- C8 (amended): a failed high-score write at game-over cannot undo the
mode transition — `self.state = GAME_OVER` is assigned before the write, so
the propagated state already carries it and `resultGame` is in GameOver for
every write outcome — but the failure IS fatal to the handler: whenever the
score is a new record and the write fails, `game_over` propagates the error
(`save_high_score` has no try/except). -/
theorem C8_write_failure (g : Game) (file : HighScoreFile)
    (hrec : g.score > g.high_score) :
    g.game_over false file =
      Except.error ({ g with state := GAME_OVER, high_score := g.score }, file) ∧
    ∀ writeOk : Bool, (resultGame (g.game_over writeOk file)).state = GAME_OVER := by
  constructor
  · simp [Game.game_over, hrec]
  · intro writeOk
    cases writeOk <;> simp [Game.game_over, hrec, resultGame]

/-- C8 witness: the amended theorem applied to the concrete record-breaking
game-over `gC8ex` with a failing write. -/
theorem C8_witness :
    gC8ex.game_over false none =
      Except.error ({ gC8ex with state := GAME_OVER, high_score := gC8ex.score },
        none) :=
  (C8_write_failure gC8ex none (by decide)).1

/-! ### C5: removal of power-ups and particles -/

/-- C5 counterexample: in `gC5ex` (score 9, one active shield power-up on
screen), collecting the single value-1 coin pushes the score to 10 and
triggers a level-up, whose `reset_game_objects` clears the active power-up
(and all particles, including the 20 just spawned) — refuting the claim that
no operation other than off-screen exit / collection / lifetime expiry
removes active PowerUps or Particles. -/
theorem C5_counterexample :
    gC5ex.power_ups.length = 1 ∧
    (gC5ex.handle_coin_collection 0 ccr0).level = gC5ex.level + 1 ∧
    (gC5ex.handle_coin_collection 0 ccr0).power_ups = [] ∧
    (gC5ex.handle_coin_collection 0 ccr0).particles = [] := by
  refine ⟨rfl, rfl, rfl, rfl⟩

/-- C5 (amended): per frame, a PowerUp survives the update pass exactly when
its moved copy is still on screen, a Particle survives exactly when it is
still alive after aging, and a collection removes exactly the collected
power-up; but additionally every level-up (and session reset) clears ALL
active PowerUps and Particles at once through `reset_game_objects`. -/
theorem C5_removal_characterization :
    (∀ (g : Game) (r : ResetRand),
      (g.level_up r).power_ups = [] ∧ (g.level_up r).particles = []) ∧
    (∀ (g : Game) (p : PowerUp),
      p ∈ g.update_power_ups.power_ups ↔
        ∃ q ∈ g.power_ups, q.updateStep = p ∧ p.is_off_screen = false) ∧
    (∀ (g : Game) (p : Particle),
      p ∈ g.update_particles.particles ↔
        ∃ q ∈ g.particles, q.updateStep = p ∧ p.is_dead = false) ∧
    (∀ (g : Game) (i : ℕ) (now : Int),
      (g.handle_powerup_collection i now).power_ups = g.power_ups.eraseIdx i) := by
  refine ⟨?_, ?_, ?_, ?_⟩
  · intro g r
    exact ⟨rfl, rfl⟩
  · intro g p
    simp only [Game.update_power_ups, List.mem_filter, List.mem_map,
      Bool.not_eq_true', Bool.not_eq_eq_eq_not]
    tauto
  · intro g p
    simp only [Game.update_particles, List.mem_filter, List.mem_map,
      Bool.not_eq_true', Bool.not_eq_eq_eq_not]
    tauto
  · intro g i now
    cases h : g.power_ups[i]? with
    | none =>
      simp [Game.handle_powerup_collection, h,
        List.eraseIdx_of_length_le (List.getElem?_eq_none_iff.mp h)]
    | some pu =>
      cases h2 : pu.type <;>
        simp [Game.handle_powerup_collection, h, h2, List.eraseIdx_set_self]

/-! ### C1: the level/score equation -/

/-- A single `handle_coin_collection` preserves `GameScoreInv`: the
collected coin's value is 1 or 5 (both below the level width 10), so the
level-up check `score // 10 > level - 1` fires exactly when the floor
crosses one boundary, keeping `level = 1 + score // 10`; respawned and
reset coins keep their values in {1, 5}. -/
theorem gameScoreInv_handle_coin (g : Game) (i : ℕ) (r : CoinCollectRand)
    (h : GameScoreInv g) : GameScoreInv (g.handle_coin_collection i r) := by
  obtain ⟨hs, hl, hv⟩ := h
  unfold Game.handle_coin_collection
  cases hc : g.coins[i]? with
  | none => exact ⟨hs, hl, hv⟩
  | some coin =>
    have hval : coin.value = 1 ∨ coin.value = 5 := hv coin (List.getElem?_mem hc)
    simp only [Game.level_up, Game.reset_game_objects]
    split_ifs with hcond
    · refine ⟨?_, ?_, ?_⟩
      · dsimp only
        rcases hval with h1 | h1 <;> omega
      · dsimp only
        rcases hval with h1 | h1 <;> omega
      · intro c hcmem
        simp only [List.mem_map] at hcmem
        obtain ⟨j, _, rfl⟩ := hcmem
        exact Or.inl rfl
    · refine ⟨?_, ?_, ?_⟩
      · dsimp only
        rcases hval with h1 | h1 <;> omega
      · dsimp only
        rcases hval with h1 | h1 <;> omega
      · intro c hcmem
        rcases List.mem_or_eq_of_mem_set hcmem with h2 | h2
        · rcases List.mem_or_eq_of_mem_set h2 with h3 | h3
          · exact hv c h3
          · subst h3; exact hval
        · subst h2
          unfold Coin.respawn
          by_cases hp : r.cRespawn.purple <;> simp [hp]

/-- `GameScoreInv` is preserved by any sequence of coin collections. -/
theorem gameScoreInv_process (g : Game) (l : List (ℕ × CoinCollectRand))
    (h : GameScoreInv g) : GameScoreInv (g.processCollections l) := by
  induction l generalizing g with
  | nil => exact h
  | cons e es ih => exact ih _ (gameScoreInv_handle_coin g e.1 e.2 h)

/-- A fresh session satisfies `GameScoreInv`: score 0, level 1 = 1 + 0 // 10,
all initial coins have value 1. -/
theorem gameScoreInv_initial (file : HighScoreFile) (r : ResetRand) :
    GameScoreInv (Game.initial file r) := by
  refine ⟨le_refl 0, rfl, ?_⟩
  intro c hcmem
  simp only [Game.initial, Game.reset_game_objects, List.mem_map] at hcmem
  obtain ⟨j, _, rfl⟩ := hcmem
  exact Or.inl rfl

/-- C1: starting from a fresh session (score 0, level 1), after each coin
collection of any sequence — each adding the collected coin's value (1
or 5) to the score and then running the level-up check — the equation
`level = 1 + score // 10` holds. -/
theorem C1_level_equation (file : HighScoreFile) (r : ResetRand)
    (events : List (ℕ × CoinCollectRand)) (n : ℕ) :
    ((Game.initial file r).processCollections (events.take n)).level =
      1 + ((Game.initial file r).processCollections (events.take n)).score / 10 :=
  (gameScoreInv_process _ _ (gameScoreInv_initial file r)).2.1

/-! ### C7: high-score persistence round trip -/

/-! The store writes `str(high_score)` and reads with `int(...)`; the proof
that the decimal writer and the parser are mutually inverse goes through
the fuel-based digit emitter `Nat.toDigitsCore` behind `Nat.repr`. -/

theorem digitChar_toNat_sub (m : ℕ) (h : m < 10) :
    (Nat.digitChar m).toNat - '0'.toNat = m := by
  interval_cases m <;> rfl

theorem digitChar_isDigit (m : ℕ) (h : m < 10) :
    (Nat.digitChar m).isDigit = true := by
  interval_cases m <;> rfl

theorem toDigitsCore_length_le (fuel : ℕ) : ∀ (n : ℕ) (ds : List Char),
    ds.length ≤ (Nat.toDigitsCore 10 fuel n ds).length := by
  induction fuel with
  | zero => intro n ds; simp [Nat.toDigitsCore]
  | succ f ih =>
    intro n ds
    unfold Nat.toDigitsCore
    by_cases h : n / 10 = 0
    · simp [h]
    · simp only [h, if_false]
      calc ds.length ≤ (Nat.digitChar (n % 10) :: ds).length := by simp
        _ ≤ _ := ih _ _

theorem toDigitsCore_all_digits (fuel : ℕ) : ∀ (n : ℕ) (ds : List Char),
    (∀ c ∈ ds, c.isDigit = true) →
    ∀ c ∈ Nat.toDigitsCore 10 fuel n ds, c.isDigit = true := by
  induction fuel with
  | zero => intro n ds hds; simpa [Nat.toDigitsCore] using hds
  | succ f ih =>
    intro n ds hds
    unfold Nat.toDigitsCore
    have hcons : ∀ c ∈ Nat.digitChar (n % 10) :: ds, c.isDigit = true := by
      intro c hc
      rcases List.mem_cons.mp hc with rfl | hc
      · exact digitChar_isDigit _ (Nat.mod_lt _ (by omega))
      · exact hds c hc
    by_cases h : n / 10 = 0
    · simpa [h] using hcons
    · simpa [h] using ih _ _ hcons

theorem toDigits_ne_nil (n : ℕ) : Nat.toDigits 10 n ≠ [] := by
  unfold Nat.toDigits Nat.toDigitsCore
  by_cases h : n / 10 = 0
  · simp [h]
  · simp only [h, if_false]
    intro hcontra
    have hlen := toDigitsCore_length_le n (n / 10) [Nat.digitChar (n % 10)]
    rw [hcontra] at hlen
    simp at hlen

theorem digLen_of_lt (n : ℕ) (h : n < 10) : digLen n = 1 := by
  unfold digLen; simp [h]

theorem digLen_of_ge (n : ℕ) (h : ¬ n < 10) : digLen n = digLen (n / 10) + 1 := by
  conv_lhs => unfold digLen
  simp [h]

theorem toDigitsCore_foldl (n : ℕ) : ∀ (fuel : ℕ), n < fuel → ∀ (ds : List Char) (a : ℕ),
    (Nat.toDigitsCore 10 fuel n ds).foldl (fun acc c => acc * 10 + (c.toNat - '0'.toNat)) a =
      ds.foldl (fun acc c => acc * 10 + (c.toNat - '0'.toNat)) (a * 10 ^ digLen n + n) := by
  induction n using Nat.strong_induction_on with
  | _ n ih =>
    intro fuel hfuel ds a
    match fuel with
    | f + 1 =>
      unfold Nat.toDigitsCore
      by_cases h : n / 10 = 0
      · have hn : n < 10 := by omega
        simp only [h, if_true, List.foldl_cons]
        rw [digitChar_toNat_sub _ (Nat.mod_lt _ (by omega)), Nat.mod_eq_of_lt hn,
          digLen_of_lt n hn, pow_one]
      · have hn : ¬ n < 10 := by
          intro hc
          exact h (Nat.div_eq_of_lt hc)
        have hdiv : n / 10 < n := Nat.div_lt_self (by omega) (by omega)
        have hfuel2 : n / 10 < f := by omega
        simp only [h, if_false]
        rw [ih (n / 10) hdiv f hfuel2, List.foldl_cons,
          digitChar_toNat_sub _ (Nat.mod_lt _ (by omega)),
          digLen_of_ge n hn, pow_succ, ← mul_assoc]
        have hmod := Nat.div_add_mod n 10
        generalize a * 10 ^ digLen (n / 10) = t
        congr 1
        omega

theorem nat_repr_toNat? (n : ℕ) : String.toNat? (Nat.repr n) = some n := by
  have hne := toDigits_ne_nil n
  have hdig : ∀ c ∈ Nat.toDigits 10 n, c.isDigit = true :=
    toDigitsCore_all_digits (n + 1) n [] (by intro c hc; simp at hc)
  have hfold :
      (Nat.toDigits 10 n).foldl (fun acc c => acc * 10 + (c.toNat - '0'.toNat)) 0 = n := by
    have h := toDigitsCore_foldl n (n + 1) (Nat.lt_succ_self n) [] 0
    simpa [Nat.toDigits] using h
  have hrepr : Nat.repr n = ⟨Nat.toDigits 10 n⟩ := rfl
  rw [hrepr, String.toNat?]
  have hnat : (⟨Nat.toDigits 10 n⟩ : String).isNat = true := by
    rw [String.isNat]
    have hemp : (⟨Nat.toDigits 10 n⟩ : String).isEmpty = false := by
      by_contra hc
      have h2 : (⟨Nat.toDigits 10 n⟩ : String).isEmpty = true := by
        revert hc; cases (⟨Nat.toDigits 10 n⟩ : String).isEmpty <;> simp
      have h3 := (String.isEmpty_iff _).mp h2
      exact hne (congrArg String.data h3)
    rw [hemp, String.all_eq]
    simpa [List.all_eq_true] using hdig
  rw [if_pos hnat, String.foldl_eq]
  exact congrArg some hfold

theorem nat_repr_head_ne_minus (n : ℕ) : (Nat.repr n).get 0 ≠ '-' := by
  obtain ⟨c, cs, hl⟩ := List.exists_cons_of_ne_nil (toDigits_ne_nil n)
  have hdigc : c.isDigit = true := by
    refine toDigitsCore_all_digits (n + 1) n [] (by intro x hx; simp at hx) c ?_
    rw [show Nat.toDigitsCore 10 (n + 1) n [] = Nat.toDigits 10 n from rfl, hl]
    exact List.mem_cons_self c cs
  have hget : (Nat.repr n).get 0 = c := by
    have hrepr : Nat.repr n = ⟨c :: cs⟩ := by rw [show Nat.repr n = ⟨Nat.toDigits 10 n⟩ from rfl, hl]
    rw [hrepr]
    have h := String.get_of_valid [] (c :: cs)
    simpa using h
  rw [hget]
  intro hc
  subst hc
  simp at hdigc

theorem nat_repr_toInt? (n : ℕ) : String.toInt? (Nat.repr n) = some (n : Int) := by
  rw [String.toInt?, if_neg (nat_repr_head_ne_minus n), nat_repr_toNat?]
  rfl

/-- C7: the high-score store round-trips: loading right after saving any
session's non-negative high score returns that score; loading with no file
present returns 0; and loading a file whose content is not a decimal
integer returns 0 — all without any failure escaping. -/
theorem C7_high_score_persistence :
    (∀ g : Game, 0 ≤ g.high_score →
      load_high_score (some g.save_high_score) = g.high_score) ∧
    load_high_score none = 0 ∧
    (∀ s : String, s.toInt? = none → load_high_score (some s) = 0) := by
  refine ⟨?_, rfl, ?_⟩
  · intro g hg
    obtain ⟨n, hn⟩ := Int.eq_ofNat_of_zero_le hg
    have hts : g.save_high_score = Nat.repr n := by
      unfold Game.save_high_score
      rw [hn]
      rfl
    rw [hts, hn]
    simp only [load_high_score]
    rw [nat_repr_toInt?]
    rfl
  · intro s hs
    simp [load_high_score, hs]

/-- C7 witness: the round trip at the concrete stored high score 42, and the
malformed-content default at concrete non-numeric content (an empty file,
on which Python's `int` raises `ValueError`). -/
theorem C7_witness :
    load_high_score (some gHS.save_high_score) = gHS.high_score ∧
    load_high_score (some "") = 0 :=
  ⟨C7_high_score_persistence.1 gHS (by decide),
   C7_high_score_persistence.2.2 "" (by rfl)⟩

/-- C5 witness: the amended characterization applied at a concrete input — a
level-up on `gBase` empties the power-up collection. -/
theorem C5_witness : (gBase.level_up reset0).power_ups = [] :=
  (C5_removal_characterization.1 gBase reset0).1
